import Mathlib

/-!
Verification of the FGAme drawing core (`FGAme/draw/color.py`, `FGAme/draw/base.py`,
`FGAme/draw/image.py`) and the `mathtools/pymath/circle.py` primitive, via a shallow
embedding of the relevant Python code in Lean.

Python values that occur as constructor arguments, dictionary keys and colour channels
are modelled by the inductive `PyVal` (integers, strings, tuples).  Python exceptions
are modelled by `PyErr`; a Python function that can raise returns `Except PyErr α`.
Mutable state (the process-wide colour cache, the texture LRU cache, the object heaps)
is passed explicitly.
-/

mutual
inductive PyVal where
  | int (n : Int)
  | str (s : String)
  | tup (xs : PyList)
deriving DecidableEq, Repr
inductive PyList where
  | nil
  | cons (hd : PyVal) (tl : PyList)
deriving DecidableEq, Repr
end

/-- Conversion from Lean list literals to the tuple-content type. -/
def pyList : List PyVal → PyList
  | [] => .nil
  | x :: xs => .cons x (pyList xs)

def PyList.length : PyList → Nat
  | .nil => 0
  | .cons _ tl => 1 + tl.length

def PyList.append : PyList → PyList → PyList
  | .nil, ys => ys
  | .cons x xs, ys => .cons x (xs.append ys)

/-- Python exception classes raised (or mentioned by the specification) in the code
under study.  `unsupportedCanvasOperation` and `invalidColorSpec` are the exception
names the specification uses; no code in the repository defines or raises them. -/
inductive PyErr where
  | keyError
  | typeError
  | valueError
  | indexError
  | attributeError
  | notImplementedError
  | recursionError
  | unsupportedCanvasOperation
  | invalidColorSpec
deriving DecidableEq, Repr

instance exceptDecEq {e a : Type} [DecidableEq e] [DecidableEq a] : DecidableEq (Except e a)
  | .ok x, .ok y =>
    if h : x = y then .isTrue (by rw [h]) else .isFalse (fun hh => by cases hh; exact h rfl)
  | .ok _, .error _ => .isFalse (fun hh => by cases hh)
  | .error _, .ok _ => .isFalse (fun hh => by cases hh)
  | .error x, .error y =>
    if h : x = y then .isTrue (by rw [h]) else .isFalse (fun hh => by cases hh; exact h rfl)

/-!  A Python `dict` with `PyVal` keys and `Nat` values (object identities), as an
association list with unique keys.  `dictGet` is `d[k]` (`none` meaning `KeyError`),
`dictSet` is `d[k] = v`, `dictDel` is `del d[k]` (`none` meaning `KeyError`). -/

def dictGet : List (PyVal × Nat) → PyVal → Option Nat
  | [], _ => none
  | (k0, v) :: rest, k => if k0 = k then some v else dictGet rest k

def dictSet : List (PyVal × Nat) → PyVal → Nat → List (PyVal × Nat)
  | [], k, v => [(k, v)]
  | (k0, v0) :: rest, k, v =>
    if k0 = k then (k, v) :: rest else (k0, v0) :: dictSet rest k v

def dictDel : List (PyVal × Nat) → PyVal → Option (List (PyVal × Nat))
  | [], _ => none
  | (k0, v0) :: rest, k =>
    if k0 = k then some rest else (dictDel rest k).map (fun d => (k0, v0) :: d)

/-- Python `len(x)`: length of a tuple or string, `TypeError` on an integer. -/
def pyLen : PyVal → Except PyErr Nat
  | .tup xs => .ok xs.length
  | .str s => .ok s.length
  | .int _ => .error .typeError

/-- Python `args + ys` where `ys` is a tuple: tuple concatenation, `TypeError` when
`args` is a string or an integer. -/
def pyAddTuple : PyVal → PyList → Except PyErr PyList
  | .tup xs, ys => .ok (xs.append ys)
  | .str _, _ => .error .typeError
  | .int _, _ => .error .typeError

/-- Python 4-ary unpacking `a, b, c, d = x`: succeeds on a 4-tuple and on a
4-character string (yielding its characters), raises `ValueError` on other
tuple or string lengths and `TypeError` on an integer. -/
def pyUnpack4 : PyVal → Except PyErr (PyVal × PyVal × PyVal × PyVal)
  | .tup (.cons a (.cons b (.cons c (.cons d .nil)))) => .ok (a, b, c, d)
  | .tup _ => .error .valueError
  | .str s =>
    match s.data with
    | [a, b, c, d] =>
      .ok (.str (String.mk [a]), .str (String.mk [b]), .str (String.mk [c]),
        .str (String.mk [d]))
    | _ => .error .valueError
  | .int _ => .error .typeError

/-- A `Color` instance: the four slots `_red`, `_green`, `_blue`, `_alpha`
(`color.py`, line 46).  The slots hold whatever `__new__` unpacked into them. -/
structure ColorObj where
  red : PyVal
  green : PyVal
  blue : PyVal
  alpha : PyVal
deriving DecidableEq, Repr

/-- The process-wide colour state: the class cache `Color._CACHE` mapping a key to
the identity of its canonical instance, together with the list of all allocated
`Color` objects (a list index is an object identity). -/
structure ColorState where
  cache : List (PyVal × Nat)
  colors : List ColorObj
deriving DecidableEq, Repr

/-- `Color.__new__` (`color.py`, lines 50-72), with explicit cache state.  `fuel`
bounds the recursion introduced by the call `Color(*(args + (255,)))` in the
3-argument branch; depth 2 always suffices, so `recursionError` is unreachable
through `colorNew`.  A result of `.ok (none, st)` is Python returning `None`
(the fall-through after a successful `del`).  In the 4-argument branch the cache
assignment and the slot unpacking are merged: unpacking a value of length 4 never
fails, so the order is immaterial. -/
def colorNewF : Nat → ColorState → PyList → Except PyErr (Option Nat × ColorState)
  | 0, _, _ => .error .recursionError
  | fuel + 1, st, args0 =>
    match dictGet st.cache (.tup args0) with
    | some i => .ok (some i, st)
    | none =>
      let args : PyVal :=
        match args0 with
        | .cons a .nil => a
        | _ => .tup args0
      match pyLen args with
      | .error e => .error e
      | .ok n =>
        if n = 3 then
          match dictGet st.cache args with
          | some i => .ok (some i, st)
          | none =>
            match pyAddTuple args (pyList [.int 255]) with
            | .error e => .error e
            | .ok args4 =>
              match colorNewF fuel st args4 with
              | .error e => .error e
              | .ok (some j, st1) =>
                .ok (some j, { st1 with cache := dictSet st1.cache args j })
              | .ok (none, _) => .error .recursionError
        else if n = 4 then
          match dictGet st.cache args with
          | some i => .ok (some i, st)
          | none =>
            match pyUnpack4 args with
            | .error e => .error e
            | .ok (r, g, b, a) =>
              .ok (some st.colors.length,
                { cache := dictSet st.cache args st.colors.length,
                  colors := st.colors ++ [⟨r, g, b, a⟩] })
        else
          match dictDel st.cache args with
          | some cache1 => .ok (none, { st with cache := cache1 })
          | none => .error .keyError

/-- `Color(*args)` on a given cache state. -/
def colorNew (st : ColorState) (args : List PyVal) : Except PyErr (Option Nat × ColorState) :=
  colorNewF 2 st (pyList args)

/-- Helper used to replay the module-level seeding of `Color._CACHE`: run one
construction, keep the state, remember the identity of the produced object. -/
def runColorNew (st : ColorState) (args : List PyVal) : ColorState × Option Nat :=
  match colorNew st args with
  | .ok (i, st1) => (st1, i)
  | .error _ => (st, none)

/-- The state of `Color._CACHE` after the module body of `color.py` has run
(lines 214-223): the five constructions in the dict literal execute first, each
interning its 3-tuple and 4-tuple keys, then `update` adds the five name keys. -/
def seedState : ColorState :=
  let s0 : ColorState := ⟨[], []⟩
  let p1 := runColorNew s0 [.int 255, .int 255, .int 255]
  let p2 := runColorNew p1.1 [.int 0, .int 0, .int 0]
  let p3 := runColorNew p2.1 [.int 255, .int 0, .int 0]
  let p4 := runColorNew p3.1 [.int 0, .int 255, .int 0]
  let p5 := runColorNew p4.1 [.int 0, .int 0, .int 255]
  let addName := fun (st : ColorState) (n : String) (v : Option Nat) =>
    match v with
    | some i => { st with cache := dictSet st.cache (.tup (pyList [.str n])) i }
    | none => st
  addName (addName (addName (addName (addName p5.1 ("white") p1.2)
    ("black") p2.2) ("red") p3.2) ("green") p4.2) ("blue") p5.2

/-- Cache coherence: whenever a 3-tuple key is interned, the corresponding
4-tuple key (alpha 255) is interned to the same object identity.  This holds for
the seeded initial cache and is preserved by every construction. -/
def Coherent (st : ColorState) : Prop :=
  ∀ xs i, dictGet st.cache (.tup xs) = some i → xs.length = 3 →
    dictGet st.cache (.tup (xs.append (pyList [.int 255]))) = some i

/-! Association-list lemmas for the cache dictionary. -/

/-- Decidable sufficient condition for `Coherent`: check, over the finite cache,
that every 3-tuple key's 4-tuple companion is interned to the same identity. -/
def coherent3Check (st : ColorState) : Bool :=
  st.cache.all (fun kv =>
    match kv.1 with
    | .tup (.cons a (.cons b (.cons c .nil))) =>
      dictGet st.cache (.tup (.cons a (.cons b (.cons c (.cons (.int 255) .nil))))) == some kv.2
    | _ => true)

/-- `Color.__len__` (`color.py`, lines 183-184). -/
def colorLen : Nat := 4

/-- `Color.__getitem__` restricted to integer keys (`color.py`, lines 192-209).
For a negative key the code computes `len(self) - key` (line 203) and re-indexes
with it; `fuel` bounds that self-recursion, and depth 2 suffices for every
integer key because the re-indexed key is never itself negative. -/
def colorGetIntF : Nat → ColorObj → Int → Except PyErr PyVal
  | 0, _, _ => .error .recursionError
  | fuel + 1, c, key =>
    if key = 0 then .ok c.red
    else if key = 1 then .ok c.green
    else if key = 2 then .ok c.blue
    else if key = 3 then .ok c.alpha
    else if key < 0 then
      let key2 := (colorLen : Int) - key
      if key2 < 0 then .error .indexError
      else colorGetIntF fuel c key2
    else .error .indexError

/-- `color[key]` for an integer key. -/
def colorGetInt (c : ColorObj) (key : Int) : Except PyErr PyVal :=
  colorGetIntF 2 c key

/-- A `mathtools.pymath` `Circle` (`circle.py`, lines 2-16): radius and centre. -/
structure PyCircle where
  radius : ℚ
  pos : ℚ × ℚ
deriving DecidableEq, Repr

/-- `Circle.intersects_circle` (`circle.py`, lines 37-39): the method body consists
of the docstring alone, so the call returns Python `None` (modelled as `none`) for
every pair of circles; the documented `True`/`False` answer is never produced. -/
def intersectsCircle (_a _b : PyCircle) : Option Bool := none

/-- `Color.rgb` (`color.py`, line 111): `self[0:3]`; `_RANGE[0:3] = (0, 1, 2)`, so
the slice is `(self[0], self[1], self[2])`. -/
def colorRgb (c : ColorObj) : Except PyErr (List PyVal) := do
  let x0 ← colorGetInt c 0
  let x1 ← colorGetInt c 1
  let x2 ← colorGetInt c 2
  pure [x0, x1, x2]

/-- `Color.rgba` (`color.py`, line 107): `tuple(self)` — the four slots in
iteration order (`__iter__`, lines 186-190). -/
def colorRgba (c : ColorObj) : List PyVal :=
  [c.red, c.green, c.blue, c.alpha]

/-- An argument passed to the module helpers `rgb()` / `rgba()`: a `Color`
instance (which exposes `.rgb` / `.rgba`), Python `None`, or a plain value. -/
inductive RgbArg where
  | colorObj (c : ColorObj)
  | pyNone
  | val (v : PyVal)
deriving DecidableEq, Repr

/-- Python truthiness of an `RgbArg` (`Color` has `__len__ = 4`, hence truthy). -/
def rgbArgTruthy : RgbArg → Bool
  | .colorObj _ => true
  | .pyNone => false
  | .val (.int n) => n != 0
  | .val (.str s) => s != ""
  | .val (.tup xs) => xs.length != 0

/-- `rgb(color)` (`color.py`, lines 260-266): try `color.rgb`; on `AttributeError`
return `Color(color or 'black').rgb`.  When `Color(...)` returns `None` (the
malformed-arity fall-through), reading `.rgb` on `None` raises `AttributeError`.
The dangling-identity arm is a model artifact: a construction always returns an
identity allocated in the colour list. -/
def rgbFun (st : ColorState) (x : RgbArg) : Except PyErr (List PyVal) × ColorState :=
  match x with
  | .colorObj c => (colorRgb c, st)
  | _ =>
    let arg : PyVal :=
      if rgbArgTruthy x then
        match x with
        | .val v => v
        | _ => .str ("black")
      else .str ("black")
    match colorNew st [arg] with
    | .ok (some i, st1) =>
      match st1.colors[i]? with
      | some c => (colorRgb c, st1)
      | none => (.error .recursionError, st1)
    | .ok (none, st1) => (.error .attributeError, st1)
    | .error e => (.error e, st)

/-- `rgba(color)` (`color.py`, lines 269-275): same shape as `rgb`, reading
`.rgba`. -/
def rgbaFun (st : ColorState) (x : RgbArg) : Except PyErr (List PyVal) × ColorState :=
  match x with
  | .colorObj c => (.ok (colorRgba c), st)
  | _ =>
    let arg : PyVal :=
      if rgbArgTruthy x then
        match x with
        | .val v => v
        | _ => .str ("black")
      else .str ("black")
    match colorNew st [arg] with
    | .ok (some i, st1) =>
      match st1.colors[i]? with
      | some c => (.ok (colorRgba c), st1)
      | none => (.error .recursionError, st1)
    | .ok (none, st1) => (.error .attributeError, st1)
    | .error e => (.error e, st)

/-- A geometric primitive owned by a Shape.  Modelled from the spec: a primitive
is a plain value carrying a position (spec section 3).  In the drawing module no
primitive is ever mutated, because the in-place transform family raises
`NotImplementedError` before reaching it. -/
structure GeomPrim where
  pos : ℚ × ℚ
deriving DecidableEq, Repr

/-- A `Shape` object: the `geometric` slot holds a reference into the primitive
heap (`base.py`, lines 104 and 110).  The style slots play no role in the
transform claims and are omitted. -/
structure ShapeObj where
  geomRef : Nat
deriving DecidableEq, Repr

/-- The drawable object heap: all allocated `Shape` objects and all allocated
geometric primitives; a list index is an object identity. -/
structure DrawState where
  shapes : List ShapeObj
  prims : List GeomPrim
deriving DecidableEq, Repr

/-- `Drawable.copy` (`base.py`, lines 43-46): `copy.copy(self)` allocates a new
object whose slots hold the same references — in particular the copy's
`geometric` reference is the receiver's, not a duplicate.  `none` (an invalid
shape reference) is a model artifact ruled out by the theorems' hypotheses. -/
def drawableCopy (st : DrawState) (sid : Nat) : Option (Nat × DrawState) :=
  match st.shapes[sid]? with
  | some s => some (st.shapes.length, { st with shapes := st.shapes ++ [⟨s.geomRef⟩] })
  | none => none

/-- `Drawable.move` (`base.py`, lines 27-30): raises `NotImplementedError`.  No
class in the repository overrides it, and an existing class attribute wins over
`Shape.__getattr__`, so every Shape's in-place move raises. -/
def drawableMove (_st : DrawState) (_sid : Nat) (_delta : ℚ × ℚ) : Except PyErr DrawState :=
  .error .notImplementedError

/-- `Drawable.irotate` (`base.py`, lines 20-25): raises `NotImplementedError`;
never overridden in the repository. -/
def drawableIrotate (_st : DrawState) (_sid : Nat) (_theta : ℚ) (_axis : Option (ℚ × ℚ)) :
    Except PyErr DrawState :=
  .error .notImplementedError

/-- `Drawable.transform` (`base.py`, lines 37-40): raises `NotImplementedError`;
never overridden in the repository. -/
def drawableTransform (_st : DrawState) (_sid : Nat) (_M : (ℚ × ℚ) × (ℚ × ℚ)) :
    Except PyErr DrawState :=
  .error .notImplementedError

/-- The attribute names reachable on a `Shape` instance by normal lookup: the
slots (`base.py`, line 104) plus the methods of `Shape` and `Drawable`.  Neither
`scale` nor any `draw_`-method is among them, so those lookups fall to
`Shape.__getattr__`. -/
def shapeAttrs : List String :=
  ["geometric", "color", "line_color", "line_width", "sync", "irotate", "move",
   "rescale", "transform", "copy", "rescaled", "rotate", "moved", "transformed",
   "update", "visualization", "from_primitive", "get_vertices", "draw",
   "canvas_primitive"]

/-- Modelled from the spec: the attribute surface of a `mathutils` geometric
primitive — data accessors and geometric predicates only (spec sections 3 and
4.2); there is no `scale` method and no `draw_`-method. -/
def primAttrs : List String :=
  ["radius", "pos", "vertices", "xmin", "xmax", "ymin", "ymax", "bbox", "rect",
   "shape", "distance_center", "distance_circle", "intersects_circle",
   "intersects_point", "contains_circle", "contains_point"]

/-- Attribute lookup on a Shape: normal lookup first, then `Shape.__getattr__`
forwarding to the owned geometric primitive (`base.py`, lines 143-144). -/
def shapeGetattr (name : String) : Except PyErr Unit :=
  if shapeAttrs.contains name then .ok ()
  else if primAttrs.contains name then .ok ()
  else .error .attributeError

/-- `Drawable.moved` (`base.py`, lines 64-70): `new = self.copy()` then
`new.move(delta)`. -/
def drawableMoved (st : DrawState) (sid : Nat) (delta : ℚ × ℚ) :
    Except PyErr Nat × DrawState :=
  match drawableCopy st sid with
  | none => (.error .indexError, st)
  | some (nid, st1) =>
    match drawableMove st1 nid delta with
    | .error e => (.error e, st1)
    | .ok st2 => (.ok nid, st2)

/-- `Drawable.rotate` (`base.py`, lines 56-62): `new = self.copy()` then
`new.irotate(theta, axis)`.  (The specification calls this derived operation
`rotated`; the method's actual name is `rotate`.) -/
def drawableRotate (st : DrawState) (sid : Nat) (theta : ℚ) (axis : Option (ℚ × ℚ)) :
    Except PyErr Nat × DrawState :=
  match drawableCopy st sid with
  | none => (.error .indexError, st)
  | some (nid, st1) =>
    match drawableIrotate st1 nid theta axis with
    | .error e => (.error e, st1)
    | .ok st2 => (.ok nid, st2)

/-- `Drawable.transformed` (`base.py`, lines 72-77): `new = self.copy()` then
`new.transform(M)`. -/
def drawableTransformed (st : DrawState) (sid : Nat) (M : (ℚ × ℚ) × (ℚ × ℚ)) :
    Except PyErr Nat × DrawState :=
  match drawableCopy st sid with
  | none => (.error .indexError, st)
  | some (nid, st1) =>
    match drawableTransform st1 nid M with
    | .error e => (.error e, st1)
    | .ok st2 => (.ok nid, st2)

/-- `Drawable.rescaled` (`base.py`, lines 48-54): `new = self.copy()` then
`new.scale(value)` — the in-place method is named `rescale`, not `scale`, so the
attribute lookup falls through `__getattr__` to the primitive and raises
`AttributeError`.  The `.ok` arm (a `scale` attribute existing after all) is
dead. -/
def drawableRescaled (st : DrawState) (sid : Nat) (_value : ℚ) :
    Except PyErr Nat × DrawState :=
  match drawableCopy st sid with
  | none => (.error .indexError, st)
  | some (_nid, st1) =>
    match shapeGetattr ("scale") with
    | .error e => (.error e, st1)
    | .ok _ => (.error .notImplementedError, st1)

/-- A canvas object, modelled by the list of method names it exposes. -/
abbrev Canvas := List String

/-- A successful draw dispatch: the object whose method was invoked (the canvas,
or the shape itself for the base-module `Image.draw`) and the method name; the
sole argument is always the shape (`self`). -/
structure DrawCall where
  target : String
  method : String
deriving DecidableEq, Repr

/-- `Shape.draw` (`base.py`, lines 146-149):
`getattr(canvas, 'draw_' + self.canvas_primitive)(self)`; `getattr` raises
`AttributeError` when the canvas lacks the method. -/
def shapeDraw (tag : String) (c : Canvas) : Except PyErr DrawCall :=
  if c.contains ("draw_" ++ tag) then .ok ⟨("canvas"), ("draw_" ++ tag)⟩
  else .error .attributeError

/-- `Circle.draw` (`base.py`, lines 163-164): `canvas.draw_circle(self)`. -/
def circleDraw (c : Canvas) : Except PyErr DrawCall :=
  if c.contains ("draw_circle") then .ok ⟨("canvas"), ("draw_circle")⟩
  else .error .attributeError

/-- `AABB.draw` (`base.py`, lines 213-214): `canvas.draw_aabb(self)`. -/
def aabbDraw (c : Canvas) : Except PyErr DrawCall :=
  if c.contains ("draw_aabb") then .ok ⟨("canvas"), ("draw_aabb")⟩
  else .error .attributeError

/-- `Poly.draw` (`base.py`, lines 233-234): `canvas.draw_poly(self)`. -/
def polyDraw (c : Canvas) : Except PyErr DrawCall :=
  if c.contains ("draw_poly") then .ok ⟨("canvas"), ("draw_poly")⟩
  else .error .attributeError

/-- `Image.draw` in `image.py` (lines 68-69): `screen.draw_image(self)`. -/
def imageModuleDraw (c : Canvas) : Except PyErr DrawCall :=
  if c.contains ("draw_image") then .ok ⟨("canvas"), ("draw_image")⟩
  else .error .attributeError

/-- `Image.draw` in `base.py` (lines 257-258): `self.draw_image(self)` — the
lookup is on the shape, not on the canvas; `draw_image` is neither a Shape
attribute nor (modelled from the spec) a primitive attribute, so the call raises
`AttributeError` whatever the canvas supports. -/
def imageBaseDraw (_c : Canvas) : Except PyErr DrawCall :=
  match shapeGetattr ("draw_image") with
  | .ok _ => .ok ⟨("self"), ("draw_image")⟩
  | .error e => .error e

/-- Modelled from the spec: a `mathutils` `Poly` stores the ordered vertex
sequence it was given and exposes it as `vertices` (spec section 3). -/
structure MPoly where
  vertices : List (ℚ × ℚ)
deriving DecidableEq, Repr

/-- A `draw.Poly` shape and its owned primitive (`base.py`, lines 226-228). -/
structure PolyShape where
  geometric : MPoly
deriving DecidableEq, Repr

/-- `Poly.get_vertices` (`base.py`, lines 230-231): returns
`self.geometric.vertices`; the `tol` parameter is ignored. -/
def polyGetVertices (s : PolyShape) (_tol : ℚ) : Except PyErr (List (ℚ × ℚ)) :=
  .ok s.geometric.vertices

/-- `Shape.get_vertices` (`base.py`, lines 133-141): raises
`NotImplementedError`; `Circle` does not override it. -/
def shapeGetVertices (_tol : ℚ) : Except PyErr (List (ℚ × ℚ)) :=
  .error .notImplementedError

/-- `AABB.get_vertices` (`base.py`, lines 210-211): raises
`NotImplementedError` (overriding the base only to raise it again). -/
def aabbGetVertices (_tol : ℚ) : Except PyErr (List (ℚ × ℚ)) :=
  .error .notImplementedError

/-- The texture cache state: the `functools.lru_cache` entries of `get_texture`,
most-recent-first, keyed by the effective argument triple (path, theta, scale),
plus the paths decoded by each allocated `Texture` object (a list index is an
object identity; PIL decoding is external and modelled as succeeding). -/
structure TexState where
  cache : List ((String × ℚ × ℚ) × Nat)
  texPaths : List String
deriving DecidableEq, Repr

def lruLookup : List ((String × ℚ × ℚ) × Nat) → (String × ℚ × ℚ) → Option Nat
  | [], _ => none
  | (k0, v) :: rest, k => if k0 = k then some v else lruLookup rest k

/-- On a cache hit `lru_cache` moves the entry to the most-recent position. -/
def lruTouch (cache : List ((String × ℚ × ℚ) × Nat)) (k : String × ℚ × ℚ) :
    List ((String × ℚ × ℚ) × Nat) :=
  match lruLookup cache k with
  | some v => (k, v) :: cache.filter (fun e => decide (e.1 ≠ k))
  | none => cache

/-- On a miss `lru_cache` inserts the computed entry as most recent and evicts
least-recently-used entries beyond the capacity of 512. -/
def lruInsert (cache : List ((String × ℚ × ℚ) × Nat)) (k : String × ℚ × ℚ) (v : Nat) :
    List ((String × ℚ × ℚ) × Nat) :=
  ((k, v) :: cache).take 512

/-- The attribute names of a `Texture` object (`image.py`, lines 15-42): the
`path` and `_pil` slots, the data accessors and the `shape`/`mode` properties —
there is no `rotate` and no `rescale` method. -/
def textureAttrs : List String :=
  ["path", "_pil", "get_pil_data", "set_data", "get_data", "shape", "mode"]

/-- `get_texture` (`image.py`, lines 7-12) under `functools.lru_cache(maxsize=512)`,
keyed here by the effective argument triple.  A base key (theta 0, scale 1)
decodes `Texture(path)` and allocates a new object; any other key first resolves
the base texture and then attempts `.rotate(theta)` — which raises
`AttributeError`, because `Texture` defines no `rotate` method, so the derived
entry is never computed or cached (a raising call is not cached by `lru_cache`).
`fuel` bounds the recursion; depth 2 suffices, and the arm guarded by a `rotate`
attribute existing is dead. -/
def getTextureF : Nat → TexState → String × ℚ × ℚ → Except PyErr Nat × TexState
  | 0, st, _ => (.error .recursionError, st)
  | fuel + 1, st, k =>
    match lruLookup st.cache k with
    | some i => (.ok i, { st with cache := lruTouch st.cache k })
    | none =>
      if k.2.1 = 0 ∧ k.2.2 = 1 then
        (.ok st.texPaths.length,
          { cache := lruInsert st.cache k st.texPaths.length,
            texPaths := st.texPaths ++ [k.1] })
      else
        match getTextureF fuel st (k.1, 0, 1) with
        | (.error e, st1) => (.error e, st1)
        | (.ok _, st1) =>
          if textureAttrs.contains ("rotate") then (.error .recursionError, st1)
          else (.error .attributeError, st1)

/-- `get_texture(path, theta, scale)` on a given cache state. -/
def getTexture (st : TexState) (k : String × ℚ × ℚ) : Except PyErr Nat × TexState :=
  getTextureF 2 st k

/-- Keyword-argument lookup (first match). -/
def kwLookup : List (String × PyVal) → String → Option PyVal
  | [], _ => none
  | (k, v) :: rest, k' => if k = k' then some v else kwLookup rest k'

/-- The parameters of `Shape.__init__` bindable by keyword (`base.py`,
lines 107-108). -/
def shapeInitParams : List String := ["geometric", "color", "line_color", "line_width"]

/-- The slots `Shape.__init__` assigns (`base.py`, lines 110-113): the geometric
value and the two interned colours (`None` possible only through the malformed
`Color` fall-through), plus the line width (whose default 0.0 is written as the
integer 0 here; no claim depends on its float-ness). -/
structure ShapeFields where
  geometric : PyVal
  colorId : Option Nat
  lineColorId : Option Nat
  lineWidth : PyVal
deriving DecidableEq, Repr

/-- `Shape.__init__(self, **kwds)` — the way `Rectangle.__init__` invokes it:
Python binding raises `TypeError` on an unexpected keyword or when the required
parameter `geometric` is missing; otherwise the body stores `geometric` and
constructs `Color(color)` and `Color(line_color)` with defaults black. -/
def shapeInitKw (cst : ColorState) (kwds : List (String × PyVal)) :
    Except PyErr (ShapeFields × ColorState) :=
  if kwds.any (fun kv => !(shapeInitParams.contains kv.1)) then .error .typeError
  else
    match kwLookup kwds ("geometric") with
    | none => .error .typeError
    | some g =>
      match colorNew cst [(kwLookup kwds ("color")).getD (.str ("black"))] with
      | .error e => .error e
      | .ok (ci, cst1) =>
        match colorNew cst1 [(kwLookup kwds ("line_color")).getD (.str ("black"))] with
        | .error e => .error e
        | .ok (li, cst2) =>
          .ok (⟨g, ci, li, (kwLookup kwds ("line_width")).getD (.int 0)⟩, cst2)

/-- Modelled from the spec: the `mathutils` `Rectangle` constructor resolves
exactly one alternate representation; the bbox form (xmin, xmax, ymin, ymax) is
modelled here — sound bounds yield the four corner vertices, anything else is a
construction error (spec sections 3 and 4.2). -/
def mRectangle (bbox : Option (ℚ × ℚ × ℚ × ℚ)) : Except PyErr (List (ℚ × ℚ)) :=
  match bbox with
  | some (xmin, xmax, ymin, ymax) =>
    if xmin ≤ xmax ∧ ymin ≤ ymax then
      .ok [(xmin, ymin), (xmax, ymin), (xmax, ymax), (xmin, ymax)]
    else .error .valueError
  | none => .error .valueError

/-- `Rectangle.__init__` (`base.py`, lines 240-245): builds
`obj = m.Rectangle(...)` and then calls `super(Poly, self).__init__(**kwds)` —
`Shape.__init__` with only the pass-through keywords.  The built polygon `obj`
is discarded, never passed on. -/
def rectangleInit (cst : ColorState) (bbox : Option (ℚ × ℚ × ℚ × ℚ))
    (kwds : List (String × PyVal)) : Except PyErr (ShapeFields × ColorState) :=
  match mRectangle bbox with
  | .error e => .error e
  | .ok _ => shapeInitKw cst kwds

theorem dictGet_dictSet_self (d : List (PyVal × Nat)) (k : PyVal) (v : Nat) :
    dictGet (dictSet d k v) k = some v := by
  induction d with
  | nil => simp [dictSet, dictGet]
  | cons hd tl ih =>
    obtain ⟨k0, v0⟩ := hd
    by_cases h : k0 = k
    · simp [dictSet, dictGet, h]
    · simp [dictSet, dictGet, h, ih]

theorem dictGet_dictSet_ne (d : List (PyVal × Nat)) (k k' : PyVal) (v : Nat) (h : k ≠ k') :
    dictGet (dictSet d k v) k' = dictGet d k' := by
  induction d with
  | nil => simp [dictSet, dictGet, h]
  | cons hd tl ih =>
    obtain ⟨k0, v0⟩ := hd
    by_cases h0 : k0 = k
    · subst h0; simp [dictSet, dictGet, h, Ne.symm h]
    · by_cases h1 : k0 = k' <;> simp [dictSet, dictGet, h0, h1, ih, Ne.symm h]

theorem intKey3_ne_intKey4 (r g b c : Int) :
    PyVal.tup (PyList.cons (.int r) (PyList.cons (.int g) (PyList.cons (.int b) .nil))) ≠
      PyVal.tup (PyList.cons (.int r) (PyList.cons (.int g)
        (PyList.cons (.int b) (PyList.cons (.int c) .nil)))) := by
  intro h
  simp at h

theorem dictGet_mem (d : List (PyVal × Nat)) (k : PyVal) (i : Nat) (h : dictGet d k = some i) :
    (k, i) ∈ d := by
  induction d with
  | nil => simp [dictGet] at h
  | cons hd tl ih =>
    obtain ⟨k0, v0⟩ := hd
    by_cases h0 : k0 = k
    · subst h0
      simp [dictGet] at h
      simp [h]
    · simp [dictGet, h0] at h
      exact List.mem_cons_of_mem _ (ih h)

theorem coherent_of_check (st : ColorState) (h : coherent3Check st = true) : Coherent st := by
  intro xs i hget hlen
  have hmem := dictGet_mem _ _ _ hget
  have hall := List.all_eq_true.mp h _ hmem
  cases xs with
  | nil => simp [PyList.length] at hlen
  | cons a t1 =>
    cases t1 with
    | nil => simp [PyList.length] at hlen
    | cons b t2 =>
      cases t2 with
      | nil => simp [PyList.length] at hlen
      | cons c t3 =>
        cases t3 with
        | nil =>
          simp only [beq_iff_eq] at hall
          simpa [pyList, PyList.append] using hall
        | cons d t4 => simp [PyList.length] at hlen; omega

/-- The seeded module state satisfies the coherence invariant. -/
theorem seedState_coherent : Coherent seedState := coherent_of_check _ (by decide)

/-- C1: for every valid 3-tuple or 4-tuple of channel values in [0, 255], repeated
calls `Color(*t)` return the identical object: on any coherent cache state the first
construction for `(r, g, b)` yields an identity `i` and a state `st1` that is a fixed
point — constructing `(r, g, b)` again, or `(r, g, b, 255)`, returns the same
identity `i` and leaves `st1` unchanged (so the identity persists across any number
of repetitions) — and likewise every 4-tuple `(r, g, b, a)` reaches a fixed point
returning one canonical identity. -/
theorem color_interning_canonical (st : ColorState) (hco : Coherent st)
    (r g b a : Int) (hr : 0 ≤ r ∧ r ≤ 255) (hg : 0 ≤ g ∧ g ≤ 255)
    (hb : 0 ≤ b ∧ b ≤ 255) (ha : 0 ≤ a ∧ a ≤ 255) :
    (∃ i st1,
      colorNew st [.int r, .int g, .int b] = .ok (some i, st1) ∧
      colorNew st1 [.int r, .int g, .int b] = .ok (some i, st1) ∧
      colorNew st1 [.int r, .int g, .int b, .int 255] = .ok (some i, st1)) ∧
    (∃ j st2,
      colorNew st [.int r, .int g, .int b, .int a] = .ok (some j, st2) ∧
      colorNew st2 [.int r, .int g, .int b, .int a] = .ok (some j, st2)) := by
  constructor
  · cases h3 : dictGet st.cache (.tup (pyList [.int r, .int g, .int b])) with
    | some i =>
      have h4 : dictGet st.cache (.tup (pyList [.int r, .int g, .int b, .int 255])) = some i := by
        have h := hco (pyList [.int r, .int g, .int b]) i h3 (by simp [pyList, PyList.length])
        simpa [pyList, PyList.append] using h
      exact ⟨i, st, by simp only [colorNew, colorNewF, h3],
        by simp only [colorNew, colorNewF, h3],
        by simp only [colorNew, colorNewF, h4]⟩
    | none =>
      cases h4 : dictGet st.cache (.tup (pyList [.int r, .int g, .int b, .int 255])) with
      | some j =>
        refine ⟨j, { st with cache := dictSet st.cache (.tup (pyList [.int r, .int g, .int b])) j },
          ?_, ?_, ?_⟩
        · simp only [pyList] at h3 h4
          simp [colorNew, colorNewF, pyList, h3, h4, pyLen, PyList.length, pyAddTuple, PyList.append]
        · simp [colorNew, colorNewF, pyList, dictGet_dictSet_self]
        · simp only [colorNew, colorNewF, pyList]
          rw [dictGet_dictSet_ne _ _ _ _ (intKey3_ne_intKey4 r g b 255)]
          simp only [pyList] at h4
          rw [h4]
      | none =>
        refine ⟨st.colors.length,
          { cache := dictSet (dictSet st.cache
              (.tup (pyList [.int r, .int g, .int b, .int 255])) st.colors.length)
              (.tup (pyList [.int r, .int g, .int b])) st.colors.length,
            colors := st.colors ++ [⟨.int r, .int g, .int b, .int 255⟩] }, ?_, ?_, ?_⟩
        · simp only [pyList] at h3 h4
          simp [colorNew, colorNewF, pyList, h3, h4, pyLen, PyList.length, pyAddTuple,
            PyList.append, pyUnpack4]
        · simp [colorNew, colorNewF, pyList, dictGet_dictSet_self]
        · simp only [colorNew, colorNewF, pyList]
          rw [dictGet_dictSet_ne _ _ _ _ (intKey3_ne_intKey4 r g b 255),
            dictGet_dictSet_self]
  · cases h4a : dictGet st.cache (.tup (pyList [.int r, .int g, .int b, .int a])) with
    | some j =>
      exact ⟨j, st, by simp only [colorNew, colorNewF, h4a],
        by simp only [colorNew, colorNewF, h4a]⟩
    | none =>
      refine ⟨st.colors.length,
        { cache := dictSet st.cache (.tup (pyList [.int r, .int g, .int b, .int a]))
            st.colors.length,
          colors := st.colors ++ [⟨.int r, .int g, .int b, .int a⟩] }, ?_, ?_⟩
      · simp only [pyList] at h4a
        simp [colorNew, colorNewF, pyList, h4a, pyLen, PyList.length, pyUnpack4]
      · simp [colorNew, colorNewF, pyList, dictGet_dictSet_self]

/-- Witness for C1: the seeded process state is coherent, the channel bounds hold
for (10, 20, 30) with alpha 40, and the interning property follows at that input. -/
theorem color_interning_canonical_witness :
    Coherent seedState ∧
    ((∃ i st1,
      colorNew seedState [.int 10, .int 20, .int 30] = .ok (some i, st1) ∧
      colorNew st1 [.int 10, .int 20, .int 30] = .ok (some i, st1) ∧
      colorNew st1 [.int 10, .int 20, .int 30, .int 255] = .ok (some i, st1)) ∧
    (∃ j st2,
      colorNew seedState [.int 10, .int 20, .int 30, .int 40] = .ok (some j, st2) ∧
      colorNew st2 [.int 10, .int 20, .int 30, .int 40] = .ok (some j, st2))) :=
  ⟨seedState_coherent,
    color_interning_canonical seedState seedState_coherent
      10 20 30 40 (by decide) (by decide) (by decide) (by decide)⟩

/-- C4: evaluation of `Color.__new__` at malformed calls, on the seeded module
state.  `Color(('white',))` — one argument, a 1-tuple holding the string — reaches
the malformed-arity branch, which DELETES the seeded `('white',)` cache entry and
returns `None`; `Color(1, 2)` raises `KeyError`.  Neither call raises the
`InvalidColorSpec` the specification prescribes, and the first one mutates the
cache. -/
theorem color_malformed_call_deletes_cache :
    (colorNew seedState [.tup (pyList [.str ("white")])]).toOption.map
        (fun p => (p.1, dictGet p.2.cache (.tup (pyList [.str ("white")])),
          dictGet p.2.cache (.tup (pyList [.int 255, .int 255, .int 255])))) =
      some (none, none, some 0) ∧
    dictGet seedState.cache (.tup (pyList [.str ("white")])) = some 0 ∧
    colorNew seedState [.int 1, .int 2] = .error .keyError := by decide

/-- C7: evaluation of `__getitem__` on the colour with channels (1, 2, 3, 4):
the non-negative indices 0..3 return the channels, but every negative index —
including -1, which the claim says selects alpha — raises `IndexError`, because
line 203 computes `len(self) - key` (here 4 - (-1) = 5) instead of
`len(self) + key`; index 4 raises `IndexError` as claimed. -/
theorem color_negative_index_raises :
    colorGetInt ⟨.int 1, .int 2, .int 3, .int 4⟩ 0 = .ok (.int 1) ∧
    colorGetInt ⟨.int 1, .int 2, .int 3, .int 4⟩ 1 = .ok (.int 2) ∧
    colorGetInt ⟨.int 1, .int 2, .int 3, .int 4⟩ 2 = .ok (.int 3) ∧
    colorGetInt ⟨.int 1, .int 2, .int 3, .int 4⟩ 3 = .ok (.int 4) ∧
    colorGetInt ⟨.int 1, .int 2, .int 3, .int 4⟩ (-1) = .error .indexError ∧
    colorGetInt ⟨.int 1, .int 2, .int 3, .int 4⟩ (-2) = .error .indexError ∧
    colorGetInt ⟨.int 1, .int 2, .int 3, .int 4⟩ (-4) = .error .indexError ∧
    colorGetInt ⟨.int 1, .int 2, .int 3, .int 4⟩ 4 = .error .indexError := by decide

/-- C5: `intersects_circle` returns `None` for every pair of circles — in
particular for the touching pair `Circle(50, (50, 0))`, `Circle(50, (-50, 0))`
(distance of centres exactly 100 = 50 + 50) and for the overlapping pair used in
the module docstring, where both the claim and the method's own docstring require
`True`. -/
theorem intersects_circle_stub (a b : PyCircle) :
    intersectsCircle a b = none ∧
    intersectsCircle ⟨50, (50, 0)⟩ ⟨50, (-50, 0)⟩ ≠ some true ∧
    intersectsCircle ⟨50, (50, 0)⟩ ⟨50, (0, 0)⟩ ≠ some true :=
  ⟨rfl, by decide, by decide⟩

/-- C10: the helpers are total over Color-like and falsy inputs: a `Color`
argument has its `.rgb` / `.rgba` returned unchanged (no state change); on the
seeded module state every falsy input — `None`, `0`, the empty string — yields
black's components `(0, 0, 0)` resp. `(0, 0, 0, 255)`; and for a truthy
non-Color value the helpers return exactly the components of the colour that
`Color(x)` constructs, in its post-construction state. -/
theorem rgb_rgba_helpers_total (st : ColorState) (c : ColorObj) :
    rgbFun st (.colorObj c) = (colorRgb c, st) ∧
    rgbaFun st (.colorObj c) = (.ok (colorRgba c), st) ∧
    rgbFun seedState .pyNone = (.ok [.int 0, .int 0, .int 0], seedState) ∧
    rgbFun seedState (.val (.int 0)) = (.ok [.int 0, .int 0, .int 0], seedState) ∧
    rgbFun seedState (.val (.str (""))) = (.ok [.int 0, .int 0, .int 0], seedState) ∧
    rgbaFun seedState .pyNone = (.ok [.int 0, .int 0, .int 0, .int 255], seedState) ∧
    rgbaFun seedState (.val (.int 0)) = (.ok [.int 0, .int 0, .int 0, .int 255], seedState) ∧
    rgbaFun seedState (.val (.str (""))) = (.ok [.int 0, .int 0, .int 0, .int 255], seedState) ∧
    (∀ v i st1 cobj, rgbArgTruthy (.val v) = true →
      colorNew st [v] = .ok (some i, st1) → st1.colors[i]? = some cobj →
      rgbFun st (.val v) = (colorRgb cobj, st1) ∧
      rgbaFun st (.val v) = (.ok (colorRgba cobj), st1)) := by
  refine ⟨rfl, rfl, by decide, by decide, by decide, by decide, by decide, by decide, ?_⟩
  intro v i st1 cobj htr hnew hcol
  constructor <;> simp [rgbFun, rgbaFun, htr, hnew, hcol]

/-- Witness for C10: applying the truthy-input clause at the string "white" on
the seeded state — the construction is a cache hit on the canonical white, and
the helpers return its components. -/
theorem rgb_rgba_helpers_total_witness :
    rgbFun seedState (.val (.str ("white"))) =
      (.ok [.int 255, .int 255, .int 255], seedState) ∧
    rgbaFun seedState (.val (.str ("white"))) =
      (.ok [.int 255, .int 255, .int 255, .int 255], seedState) := by
  have h := (rgb_rgba_helpers_total seedState ⟨.int 0, .int 0, .int 0, .int 0⟩).2.2.2.2.2.2.2.2
    (.str ("white")) 0 seedState ⟨.int 255, .int 255, .int 255, .int 255⟩
    (by decide) (by decide) (by decide)
  exact ⟨h.1.trans (by decide), h.2.trans (by decide)⟩

/-- C2 counterexample: on a heap holding one shape that owns primitive 0, the
duplicate made by `copy` is shallow — its `geometric` reference is the same
primitive 0 as the receiver's, visible in the resulting heap — and `moved`
raises `NotImplementedError` instead of returning a transformed copy, so the
claimed full, independent value copy and transformed result never materialise. -/
theorem derived_transform_claim_cex :
    drawableCopy ⟨[⟨0⟩], [⟨(0, 0)⟩]⟩ 0 = some (1, ⟨[⟨0⟩, ⟨0⟩], [⟨(0, 0)⟩]⟩) ∧
    drawableMoved ⟨[⟨0⟩], [⟨(0, 0)⟩]⟩ 0 (1, 1) =
      (.error .notImplementedError, ⟨[⟨0⟩, ⟨0⟩], [⟨(0, 0)⟩]⟩) := by decide

/-- C2 amended: each derived transform first makes a shallow copy — a new object,
distinct from the receiver, whose `geometric` reference aliases the receiver's —
and then raises: `moved`, `rotate` and `transformed` raise `NotImplementedError`
from the unimplemented in-place family, `rescaled` raises `AttributeError` from
the misnamed `scale` lookup.  In every case the primitive heap — hence the
receiver's geometry — is unchanged, and no transformed object is returned. -/
theorem derived_transforms_shallow_and_stubbed (st : DrawState) (sid : Nat) (s : ShapeObj)
    (h : st.shapes[sid]? = some s) (delta : ℚ × ℚ) (theta value : ℚ)
    (axis : Option (ℚ × ℚ)) (M : (ℚ × ℚ) × (ℚ × ℚ)) :
    (drawableCopy st sid = some (st.shapes.length,
        { st with shapes := st.shapes ++ [⟨s.geomRef⟩] }) ∧ sid ≠ st.shapes.length) ∧
    drawableMoved st sid delta =
      (.error .notImplementedError, { st with shapes := st.shapes ++ [⟨s.geomRef⟩] }) ∧
    drawableRotate st sid theta axis =
      (.error .notImplementedError, { st with shapes := st.shapes ++ [⟨s.geomRef⟩] }) ∧
    drawableTransformed st sid M =
      (.error .notImplementedError, { st with shapes := st.shapes ++ [⟨s.geomRef⟩] }) ∧
    drawableRescaled st sid value =
      (.error .attributeError, { st with shapes := st.shapes ++ [⟨s.geomRef⟩] }) ∧
    ((drawableMoved st sid delta).2.prims = st.prims ∧
      (drawableRotate st sid theta axis).2.prims = st.prims ∧
      (drawableTransformed st sid M).2.prims = st.prims ∧
      (drawableRescaled st sid value).2.prims = st.prims) := by
  have hlt : sid < st.shapes.length := by
    by_contra hge
    rw [List.getElem?_eq_none (Nat.le_of_not_lt hge)] at h
    exact Option.noConfusion h
  refine ⟨⟨by simp [drawableCopy, h], Nat.ne_of_lt hlt⟩, ?_, ?_, ?_, ?_, ?_, ?_, ?_, ?_⟩ <;>
    simp [drawableMoved, drawableRotate, drawableTransformed, drawableRescaled,
      drawableCopy, drawableMove, drawableIrotate, drawableTransform, shapeGetattr,
      shapeAttrs, primAttrs, h]

/-- Witness for C2 amended, at a one-shape heap: the hypothesis (shape 0 exists)
holds and the conclusions evaluate as the theorem states. -/
theorem derived_transforms_shallow_and_stubbed_witness :
    (drawableCopy ⟨[⟨0⟩], [⟨(2, 3)⟩]⟩ 0 = some (1, ⟨[⟨0⟩, ⟨0⟩], [⟨(2, 3)⟩]⟩) ∧ 0 ≠ 1) ∧
    drawableMoved ⟨[⟨0⟩], [⟨(2, 3)⟩]⟩ 0 (1, 1) =
      (.error .notImplementedError, ⟨[⟨0⟩, ⟨0⟩], [⟨(2, 3)⟩]⟩) ∧
    drawableRotate ⟨[⟨0⟩], [⟨(2, 3)⟩]⟩ 0 90 none =
      (.error .notImplementedError, ⟨[⟨0⟩, ⟨0⟩], [⟨(2, 3)⟩]⟩) ∧
    drawableTransformed ⟨[⟨0⟩], [⟨(2, 3)⟩]⟩ 0 ((1, 0), (0, 1)) =
      (.error .notImplementedError, ⟨[⟨0⟩, ⟨0⟩], [⟨(2, 3)⟩]⟩) ∧
    drawableRescaled ⟨[⟨0⟩], [⟨(2, 3)⟩]⟩ 0 2 =
      (.error .attributeError, ⟨[⟨0⟩, ⟨0⟩], [⟨(2, 3)⟩]⟩) ∧
    ((drawableMoved ⟨[⟨0⟩], [⟨(2, 3)⟩]⟩ 0 (1, 1)).2.prims = [⟨(2, 3)⟩] ∧
      (drawableRotate ⟨[⟨0⟩], [⟨(2, 3)⟩]⟩ 0 90 none).2.prims = [⟨(2, 3)⟩] ∧
      (drawableTransformed ⟨[⟨0⟩], [⟨(2, 3)⟩]⟩ 0 ((1, 0), (0, 1))).2.prims = [⟨(2, 3)⟩] ∧
      (drawableRescaled ⟨[⟨0⟩], [⟨(2, 3)⟩]⟩ 0 2).2.prims = [⟨(2, 3)⟩]) :=
  derived_transforms_shallow_and_stubbed ⟨[⟨0⟩], [⟨(2, 3)⟩]⟩ 0 ⟨0⟩ (by decide)
    (1, 1) 90 2 none ((1, 0), (0, 1))

/-- C3 counterexample: a circle shape drawn on a canvas lacking `draw_circle`
raises `AttributeError` — not the `UnsupportedCanvasOperation` the claim names,
which is a distinct exception that no code defines — and the base-module
`Image.draw` raises `AttributeError` even on a canvas that does provide
`draw_image`, instead of invoking it with the shape. -/
theorem shape_draw_claim_cex :
    shapeDraw ("circle") [] = .error .attributeError ∧
    PyErr.attributeError ≠ PyErr.unsupportedCanvasOperation ∧
    imageBaseDraw [("draw_image")] = .error .attributeError := by decide

/-- C3 amended: `Shape.draw` invokes exactly the canvas method named
`'draw_' + canvas_primitive` with the shape as sole argument, raising
`AttributeError` when the canvas lacks it; the overriding `draw` methods of
`Circle`, `AABB`, `Poly` and the image-module `Image` agree with that dispatch at
their fixed tags; the base-module `Image.draw` instead looks `draw_image` up on
the shape itself and raises `AttributeError` regardless of the canvas. -/
theorem shape_draw_dispatch (tag : String) (c : Canvas) :
    shapeDraw tag c = (if c.contains ("draw_" ++ tag) then
      .ok ⟨("canvas"), ("draw_" ++ tag)⟩ else .error .attributeError) ∧
    circleDraw c = shapeDraw ("circle") c ∧
    aabbDraw c = shapeDraw ("aabb") c ∧
    polyDraw c = shapeDraw ("poly") c ∧
    imageModuleDraw c = shapeDraw ("image") c ∧
    imageBaseDraw c = .error .attributeError :=
  ⟨rfl, rfl, rfl, rfl, rfl, rfl⟩

/-- C8 counterexample: the AABB variant (and the base used by Circle) raises
`NotImplementedError` at its default tolerance and at the claim's generic
tolerance, so not every concrete Shape variant produces a vertex sequence. -/
theorem get_vertices_claim_cex :
    aabbGetVertices (1 / 1000000) = .error .notImplementedError ∧
    shapeGetVertices 2 = .error .notImplementedError := by decide

/-- C8 amended: `Poly.get_vertices` returns the owned primitive's vertex
sequence verbatim, with the tolerance argument ignored (any two tolerances give
the same result); the `AABB` variant and the inherited base raise
`NotImplementedError` instead of producing vertices. -/
theorem get_vertices_poly_verbatim (s : PolyShape) (tol tol' : ℚ) :
    polyGetVertices s tol = .ok s.geometric.vertices ∧
    polyGetVertices s tol = polyGetVertices s tol' ∧
    aabbGetVertices tol = .error .notImplementedError ∧
    shapeGetVertices tol = .error .notImplementedError :=
  ⟨rfl, rfl, rfl, rfl⟩

/-- C6: evaluation of `get_texture`: from the empty cache, the first call for the
base key ("ball.png", 0, 1) decodes and caches texture 0; a second call with the
same key is a hit returning the identical object 0 with the cache unchanged; but
the call for theta = 90 resolves the base entry and then raises `AttributeError`
— `Texture` has no `rotate` (or `rescale`) method — so the claimed derived
rotated/scaled variant can never be produced. -/
theorem get_texture_eval :
    getTexture ⟨[], []⟩ (("ball.png"), 0, 1) =
      (.ok 0, ⟨[((("ball.png"), 0, 1), 0)], [("ball.png")]⟩) ∧
    getTexture ⟨[((("ball.png"), 0, 1), 0)], [("ball.png")]⟩ (("ball.png"), 0, 1) =
      (.ok 0, ⟨[((("ball.png"), 0, 1), 0)], [("ball.png")]⟩) ∧
    getTexture ⟨[((("ball.png"), 0, 1), 0)], [("ball.png")]⟩ (("ball.png"), 90, 1) =
      (.error .attributeError, ⟨[((("ball.png"), 0, 1), 0)], [("ball.png")]⟩) ∧
    textureAttrs.contains ("rotate") = false ∧
    textureAttrs.contains ("rescale") = false := by decide

/-- C9 counterexample: `Rectangle(bbox=(0,1,0,1), geometric=(7,))` raises no
`TypeError`: the smuggled `geometric` keyword binds `Shape.__init__`'s required
parameter, and a Rectangle instance is created — with the smuggled value, not
the built rectangle polygon, as its attached geometry. -/
theorem rectangle_init_claim_cex :
    rectangleInit seedState (some (0, 1, 0, 1))
        [(("geometric"), .tup (pyList [.int 7]))] =
      .ok (⟨.tup (pyList [.int 7]), some 1, some 1, .int 0⟩, seedState) := by decide

/-- C9 amended: whenever the keyword arguments passed through `**kwds` contain no
`geometric` entry, `Rectangle.__init__` fails with `TypeError` once
`m.Rectangle` accepts the bounds (the built polygon being discarded before
`Shape.__init__` is bound); and any construction that does succeed got its
geometry from a `geometric` keyword, never from the built rectangle. -/
theorem rectangle_init_type_error (cst : ColorState) (bbox : Option (ℚ × ℚ × ℚ × ℚ))
    (kwds : List (String × PyVal)) (verts : List (ℚ × ℚ))
    (hok : mRectangle bbox = .ok verts) (hg : kwLookup kwds ("geometric") = none) :
    rectangleInit cst bbox kwds = .error .typeError ∧
    (∀ kwds2 f cst2, rectangleInit cst bbox kwds2 = .ok (f, cst2) →
      kwLookup kwds2 ("geometric") = some f.geometric) := by
  constructor
  · by_cases hany : kwds.any (fun kv => !(shapeInitParams.contains kv.1)) <;>
      simp [rectangleInit, hok, shapeInitKw, hany, hg]
  · intro kwds2 f cst2 hok2
    simp only [rectangleInit, hok, shapeInitKw] at hok2
    split at hok2
    · exact absurd hok2 (by simp)
    · cases hgl : kwLookup kwds2 ("geometric") with
      | none => simp only [hgl] at hok2; exact absurd hok2 (by simp)
      | some g =>
        simp only [hgl] at hok2
        cases h1 : colorNew cst [(kwLookup kwds2 ("color")).getD (.str ("black"))] with
        | error e => simp only [h1] at hok2; exact absurd hok2 (by simp)
        | ok p1 =>
          obtain ⟨ci, cst1⟩ := p1
          simp only [h1] at hok2
          cases h2 : colorNew cst1 [(kwLookup kwds2 ("line_color")).getD (.str ("black"))] with
          | error e => simp only [h2] at hok2; exact absurd hok2 (by simp)
          | ok p2 =>
            obtain ⟨li, cst3⟩ := p2
            simp only [h2, Except.ok.injEq, Prod.mk.injEq] at hok2
            obtain ⟨hf, _⟩ := hok2
            subst hf
            rfl

/-- Witness for C9 amended: valid bounds, keywords carrying only a colour — the
hypotheses hold and the construction raises `TypeError`. -/
theorem rectangle_init_type_error_witness :
    rectangleInit seedState (some (0, 1, 0, 1)) [(("color"), .str ("red"))] =
      .error .typeError ∧
    (∀ kwds2 f cst2,
      rectangleInit seedState (some (0, 1, 0, 1)) kwds2 = .ok (f, cst2) →
      kwLookup kwds2 ("geometric") = some f.geometric) :=
  rectangle_init_type_error seedState (some (0, 1, 0, 1)) [(("color"), .str ("red"))]
    [(0, 0), (1, 0), (1, 1), (0, 1)] (by decide) (by decide)
